import Mathlib

/-!
# Verification of the page-scroll-music viewer

A shallow embedding of the half-page pagination engine, the navigation
controls, the marker / annot capture state machine of the viewer, and the
IndexedDB-backed storage layer (`src/lib/storage.ts`), together with proofs
of the specified properties.

Conventions of the embedding:
* JS integers are modelled as `Int`; `Math.floor` of a quotient of integers
  by `2` is `Int.fdiv · 2`, `Math.ceil` is the negated floor of the negated
  argument. The JS remainder `view % 2 === 0` test agrees with `Int.emod`
  on every integer (for odd negatives JS gives `-1` and `emod` gives `1`,
  and both are nonzero), so `view % 2 = 0` is used directly.
* Relative click coordinates are exact rationals (`Rat`).
* The IndexedDB object stores are modelled as lists of records; `put`
  overwrites the record with the same key, `get` is `List.find?` on the key.
-/

namespace PageScrollMusic

/-- Which half of a source page is sampled into a slot (`'top' | 'bottom'`). -/
inductive Half where
  | top
  | bottom
deriving DecidableEq, Repr

/-- The record returned by `getViewConfiguration`
(`{topPage, topHalf, bottomPage, bottomHalf}`). -/
structure ViewConfiguration where
  topPage : Int
  topHalf : Half
  bottomPage : Int
  bottomHalf : Half
deriving DecidableEq, Repr

/-- `getTotalViews` from `src/components/PDFViewer.tsx` (line 26):
`totalPages > 0 ? 2 * totalPages - 1 : 0`. -/
def getTotalViews (totalPages : Int) : Int :=
  if totalPages > 0 then 2 * totalPages - 1 else 0

/-- `getViewConfiguration` from the canonical viewer
(`src/components/PDFViewer.tsx` lines 146-178).
`pageIndex = Math.floor((view - 2) / 2) + 1`. -/
def getViewConfiguration (view : Int) : ViewConfiguration :=
  if view = 1 then
    { topPage := 1, topHalf := .top, bottomPage := 1, bottomHalf := .bottom }
  else
    let pageIndex : Int := (view - 2).fdiv 2 + 1
    if view % 2 = 0 then
      { topPage := pageIndex + 1, topHalf := .top,
        bottomPage := pageIndex, bottomHalf := .bottom }
    else
      { topPage := pageIndex + 1, topHalf := .top,
        bottomPage := pageIndex + 1, bottomHalf := .bottom }

/-- `getViewConfiguration` from the marker/annot viewer variant
(`src/unnamed/part_001` lines 767-799); its body is the same floor-based
case analysis as the canonical viewer. -/
def getViewConfigurationMarkerViewer (view : Int) : ViewConfiguration :=
  if view = 1 then
    { topPage := 1, topHalf := .top, bottomPage := 1, bottomHalf := .bottom }
  else
    let pageIndex : Int := (view - 2).fdiv 2 + 1
    if view % 2 = 0 then
      { topPage := pageIndex + 1, topHalf := .top,
        bottomPage := pageIndex, bottomHalf := .bottom }
    else
      { topPage := pageIndex + 1, topHalf := .top,
        bottomPage := pageIndex + 1, bottomHalf := .bottom }

/-- `Math.ceil(view / 2)` on an integer argument. -/
def jsCeilHalf (view : Int) : Int :=
  -((-view).fdiv 2)

/-- `getViewConfiguration` from the other viewer variant
(`src/unnamed/part_001` lines 147-172), which uses
`pageNum = Math.ceil(view / 2)` instead of the floor-based index. -/
def getViewConfigurationCeil (view : Int) : ViewConfiguration :=
  if view = 1 then
    { topPage := 1, topHalf := .top, bottomPage := 1, bottomHalf := .bottom }
  else
    if view % 2 = 0 then
      let pageNum := jsCeilHalf view
      { topPage := pageNum + 1, topHalf := .top,
        bottomPage := pageNum, bottomHalf := .bottom }
    else
      let pageNum := jsCeilHalf view
      { topPage := pageNum, topHalf := .top,
        bottomPage := pageNum, bottomHalf := .bottom }

/-- The view configuration as the spec states it (§4.1 case analysis):
view 1 is page 1 over page 1; otherwise `pageIndex = floor((view-2)/2) + 1`
(written with euclidean division, which equals the floor for `view ≥ 2`),
even views pair the next page's top half over the current page's bottom
half, odd views show one full page. -/
def viewConfigurationSpec (view : Int) : ViewConfiguration :=
  if view = 1 then
    { topPage := 1, topHalf := .top, bottomPage := 1, bottomHalf := .bottom }
  else
    let pageIndex : Int := (view - 2) / 2 + 1
    if view % 2 = 0 then
      { topPage := pageIndex + 1, topHalf := .top,
        bottomPage := pageIndex, bottomHalf := .bottom }
    else
      { topPage := pageIndex + 1, topHalf := .top,
        bottomPage := pageIndex + 1, bottomHalf := .bottom }

/- ### Closed forms of the pagination function on even and odd views -/

/-- Closed form of the canonical pagination function on even views. -/
theorem getViewConfiguration_even (k : Int) :
    getViewConfiguration (2 * k) =
      { topPage := k + 1, topHalf := .top, bottomPage := k, bottomHalf := .bottom } := by
  unfold getViewConfiguration
  rw [if_neg (show ¬(2 * k = 1) by omega), if_pos (show 2 * k % 2 = 0 by omega)]
  have hfd : ∀ a : Int, a.fdiv 2 = a / 2 := fun a => Int.fdiv_eq_ediv a (by norm_num)
  simp only [hfd, ViewConfiguration.mk.injEq, and_true, true_and]
  constructor <;> omega

/-- Closed form of the canonical pagination function on odd views.
For `k = 0` the `view = 1` branch returns the same record as the formula. -/
theorem getViewConfiguration_odd (k : Int) :
    getViewConfiguration (2 * k + 1) =
      { topPage := k + 1, topHalf := .top, bottomPage := k + 1, bottomHalf := .bottom } := by
  by_cases hk : k = 0
  · subst hk; decide
  · unfold getViewConfiguration
    rw [if_neg (show ¬(2 * k + 1 = 1) by omega),
      if_neg (show ¬((2 * k + 1) % 2 = 0) by omega)]
    have hfd : ∀ a : Int, a.fdiv 2 = a / 2 := fun a => Int.fdiv_eq_ediv a (by norm_num)
    simp only [hfd, ViewConfiguration.mk.injEq, and_true, true_and]
    constructor <;> omega

/-- Closed form of the ceil-based pagination function on even views. -/
theorem getViewConfigurationCeil_even (k : Int) :
    getViewConfigurationCeil (2 * k) =
      { topPage := k + 1, topHalf := .top, bottomPage := k, bottomHalf := .bottom } := by
  unfold getViewConfigurationCeil jsCeilHalf
  rw [if_neg (show ¬(2 * k = 1) by omega), if_pos (show 2 * k % 2 = 0 by omega)]
  have hfd : ∀ a : Int, a.fdiv 2 = a / 2 := fun a => Int.fdiv_eq_ediv a (by norm_num)
  simp only [hfd, ViewConfiguration.mk.injEq, and_true, true_and]
  constructor <;> omega

/-- Closed form of the ceil-based pagination function on odd views. -/
theorem getViewConfigurationCeil_odd (k : Int) :
    getViewConfigurationCeil (2 * k + 1) =
      { topPage := k + 1, topHalf := .top, bottomPage := k + 1, bottomHalf := .bottom } := by
  by_cases hk : k = 0
  · subst hk; decide
  · unfold getViewConfigurationCeil jsCeilHalf
    rw [if_neg (show ¬(2 * k + 1 = 1) by omega),
      if_neg (show ¬((2 * k + 1) % 2 = 0) by omega)]
    have hfd : ∀ a : Int, a.fdiv 2 = a / 2 := fun a => Int.fdiv_eq_ediv a (by norm_num)
    simp only [hfd, ViewConfiguration.mk.injEq, and_true, true_and]
    constructor <;> omega

/-- C1: for every view `≥ 1` the code's `getViewConfiguration` equals the
spec's case analysis, and in particular views 1-4 are
`{1,top,1,bottom}`, `{2,top,1,bottom}`, `{2,top,2,bottom}`,
`{3,top,2,bottom}`. -/
theorem getViewConfiguration_matches_spec (view : Int) (hview : 1 ≤ view) :
    getViewConfiguration view = viewConfigurationSpec view
    ∧ getViewConfiguration 1 =
        { topPage := 1, topHalf := .top, bottomPage := 1, bottomHalf := .bottom }
    ∧ getViewConfiguration 2 =
        { topPage := 2, topHalf := .top, bottomPage := 1, bottomHalf := .bottom }
    ∧ getViewConfiguration 3 =
        { topPage := 2, topHalf := .top, bottomPage := 2, bottomHalf := .bottom }
    ∧ getViewConfiguration 4 =
        { topPage := 3, topHalf := .top, bottomPage := 2, bottomHalf := .bottom } := by
  refine ⟨?_, by decide, by decide, by decide, by decide⟩
  unfold getViewConfiguration viewConfigurationSpec
  by_cases h1 : view = 1
  · rw [if_pos h1, if_pos h1]
  · rw [if_neg h1, if_neg h1, Int.fdiv_eq_ediv (view - 2) (by norm_num)]

/-- Witness for C1 at the concrete view 3. -/
theorem getViewConfiguration_matches_spec_witness :
    (1 : Int) ≤ 3 ∧ getViewConfiguration 3 = viewConfigurationSpec 3 :=
  ⟨by decide, (getViewConfiguration_matches_spec 3 (by decide)).1⟩

/-- C2: `getTotalViews 0 = 0`, `getTotalViews 1 = 1`, `getTotalViews 5 = 9`,
and for every `N ≥ 0`, `getTotalViews N = max 0 (2N - 1)`. -/
theorem getTotalViews_spec :
    getTotalViews 0 = 0 ∧ getTotalViews 1 = 1 ∧ getTotalViews 5 = 9
    ∧ ∀ N : Int, 0 ≤ N → getTotalViews N = max 0 (2 * N - 1) := by
  refine ⟨by decide, by decide, by decide, ?_⟩
  intro N hN
  unfold getTotalViews
  rcases lt_or_le 0 N with h | h
  · rw [if_pos h, max_eq_right (by omega)]
  · rw [if_neg (by omega), max_eq_left (by omega)]

/-- Witness for C2 at the concrete page count 3. -/
theorem getTotalViews_spec_witness :
    (0 : Int) ≤ 3 ∧ getTotalViews 3 = max 0 (2 * 3 - 1) :=
  ⟨by decide, getTotalViews_spec.2.2.2 3 (by decide)⟩

/-- C3: on every view `≥ 1` the three `getViewConfiguration` implementations
found in the source (the two floor-based ones and the ceil-based one)
return equal `ViewConfiguration` records. -/
theorem getViewConfiguration_variants_agree (view : Int) (hview : 1 ≤ view) :
    getViewConfiguration view = getViewConfigurationMarkerViewer view
    ∧ getViewConfiguration view = getViewConfigurationCeil view := by
  refine ⟨rfl, ?_⟩
  obtain ⟨k, hk | hk⟩ := Int.even_or_odd' view <;> subst hk
  · rw [getViewConfiguration_even, getViewConfigurationCeil_even]
  · rw [getViewConfiguration_odd, getViewConfigurationCeil_odd]

/-- Witness for C3 at the concrete view 4. -/
theorem getViewConfiguration_variants_agree_witness :
    (1 : Int) ≤ 4
    ∧ (getViewConfiguration 4 = getViewConfigurationMarkerViewer 4
       ∧ getViewConfiguration 4 = getViewConfigurationCeil 4) :=
  ⟨by decide, getViewConfiguration_variants_agree 4 (by decide)⟩

/- ### Navigation (`goToNextView`, `goToPreviousView`, canvas clicks) -/

/-- `goToNextView` / `handleCanvasClick` forward step
(`src/components/PDFViewer.tsx` lines 180-198): advance only while
`currentView < getTotalViews()`. -/
def goToNextView (totalPages currentView : Int) : Int :=
  if currentView < getTotalViews totalPages then currentView + 1 else currentView

/-- `goToPreviousView` (`src/components/PDFViewer.tsx` lines 187-191 and
`src/unnamed/part_001` lines 903-907): step back only while
`currentView > 1`. -/
def goToPreviousView (currentView : Int) : Int :=
  if currentView > 1 then currentView - 1 else currentView

/-- One user navigation action: a forward step (next-view button /
right-half click) or a backward step (previous button / left-half click). -/
inductive NavStep where
  | forward
  | backward
deriving DecidableEq, Repr

/-- Apply one navigation action to the current view. -/
def navStep (totalPages currentView : Int) : NavStep → Int
  | .forward => goToNextView totalPages currentView
  | .backward => goToPreviousView currentView

/-- Run a sequence of navigation actions from a starting view. -/
def navRun (totalPages start : Int) (steps : List NavStep) : Int :=
  steps.foldl (navStep totalPages) start

theorem navStep_bounds (totalPages v : Int) (s : NavStep)
    (h1 : 1 ≤ v) (h2 : v ≤ getTotalViews totalPages) :
    1 ≤ navStep totalPages v s ∧ navStep totalPages v s ≤ getTotalViews totalPages := by
  cases s <;>
    simp only [navStep, goToNextView, goToPreviousView] <;>
    split <;> omega

theorem navRun_bounds (totalPages : Int) (steps : List NavStep) :
    ∀ v : Int, 1 ≤ v → v ≤ getTotalViews totalPages →
      1 ≤ navRun totalPages v steps ∧ navRun totalPages v steps ≤ getTotalViews totalPages := by
  induction steps with
  | nil => intro v h1 h2; exact ⟨h1, h2⟩
  | cons s rest ih =>
    intro v h1 h2
    have hb := navStep_bounds totalPages v s h1 h2
    simpa [navRun, List.foldl_cons] using ih (navStep totalPages v s) hb.1 hb.2

/-- C4: for a document with `N ≥ 1` pages, any sequence of clamped
forward/backward steps starting from view 1 stays within
`[1, getTotalViews N]`; a forward step at the last view and a backward step
at view 1 are no-ops; and for a 3-page document five forward steps from
view 1 end exactly at view 5 while a backward step from view 1 stays at 1. -/
theorem navigation_clamped (N : Int) (hN : 1 ≤ N) :
    (∀ steps : List NavStep,
        1 ≤ navRun N 1 steps ∧ navRun N 1 steps ≤ getTotalViews N)
    ∧ goToNextView N (getTotalViews N) = getTotalViews N
    ∧ goToPreviousView 1 = 1
    ∧ navRun 3 1 [.forward, .forward, .forward, .forward, .forward] = 5 := by
  refine ⟨?_, ?_, by decide, by decide⟩
  · intro steps
    have h1 : (1 : Int) ≤ getTotalViews N := by
      unfold getTotalViews; split <;> omega
    exact navRun_bounds N steps 1 le_rfl h1
  · unfold goToNextView
    rw [if_neg (by omega)]

/-- Witness for C4 at the concrete 3-page document. -/
theorem navigation_clamped_witness :
    (1 : Int) ≤ 3
    ∧ (1 ≤ navRun 3 1 [.forward, .backward, .forward] ∧
        navRun 3 1 [.forward, .backward, .forward] ≤ getTotalViews 3)
    ∧ goToPreviousView 1 = 1 :=
  ⟨by decide, (navigation_clamped 3 (by decide)).1 [.forward, .backward, .forward],
    (navigation_clamped 3 (by decide)).2.2.1⟩

/- ### The compositor's page selection (`renderCurrentView`) -/

/-- The `pageNumbers` list built by `renderCurrentView`
(`src/components/PDFViewer.tsx` lines 70-72):
`[topPage, bottomPage].filter((page, index, self) => page <= totalPages &&
self.indexOf(page) === index)`. The `indexOf` test keeps only the first
occurrence, so `topPage` passes whenever it is within range and
`bottomPage` passes when it is within range and differs from `topPage`. -/
def pageNumbersToRender (totalPages : Int) (cfg : ViewConfiguration) : List Int :=
  (if cfg.topPage ≤ totalPages then [cfg.topPage] else []) ++
    (if cfg.bottomPage ≤ totalPages ∧ cfg.bottomPage ≠ cfg.topPage
      then [cfg.bottomPage] else [])

/-- The guard of the top-half draw in `renderCurrentView`
(`src/components/PDFViewer.tsx` line 119):
`topPage <= totalPages && renderedPages.has(topPage)`, where
`renderedPages` holds exactly the pages of `pageNumbersToRender`. -/
def drawsTopHalf (totalPages view : Int) : Prop :=
  (getViewConfiguration view).topPage ≤ totalPages ∧
    (getViewConfiguration view).topPage ∈
      pageNumbersToRender totalPages (getViewConfiguration view)

/-- The guard of the bottom-half draw in `renderCurrentView`
(`src/components/PDFViewer.tsx` line 130). -/
def drawsBottomHalf (totalPages view : Int) : Prop :=
  (getViewConfiguration view).bottomPage ≤ totalPages ∧
    (getViewConfiguration view).bottomPage ∈
      pageNumbersToRender totalPages (getViewConfiguration view)

theorem draws_of_page_bounds (totalPages view : Int)
    (h1 : (getViewConfiguration view).topPage ≤ totalPages)
    (h2 : (getViewConfiguration view).bottomPage ≤ totalPages) :
    drawsTopHalf totalPages view ∧ drawsBottomHalf totalPages view := by
  unfold drawsTopHalf drawsBottomHalf pageNumbersToRender
  refine ⟨⟨h1, ?_⟩, ⟨h2, ?_⟩⟩
  · simp [h1]
  · by_cases hb : (getViewConfiguration view).bottomPage = (getViewConfiguration view).topPage
    · simp [h1, hb]
    · simp [h1, h2, hb]

/-- C10: for every page count `N ≥ 1` and in-range view `1 ≤ v ≤ 2N - 1`,
both referenced pages lie in `[1, N]` and both half-draw guards of the
compositor pass; at the out-of-range view `2N` the top page is `N + 1`, so
the top-half guard fails and that half is left blank. -/
theorem valid_views_reference_existing_pages (N v : Int)
    (hN : 1 ≤ N) (hv1 : 1 ≤ v) (hv2 : v ≤ 2 * N - 1) :
    (1 ≤ (getViewConfiguration v).topPage ∧ (getViewConfiguration v).topPage ≤ N
      ∧ 1 ≤ (getViewConfiguration v).bottomPage ∧ (getViewConfiguration v).bottomPage ≤ N)
    ∧ (drawsTopHalf N v ∧ drawsBottomHalf N v)
    ∧ (getViewConfiguration (2 * N)).topPage = N + 1
    ∧ ¬ drawsTopHalf N (2 * N) := by
  have hbounds : 1 ≤ (getViewConfiguration v).topPage ∧ (getViewConfiguration v).topPage ≤ N
      ∧ 1 ≤ (getViewConfiguration v).bottomPage ∧ (getViewConfiguration v).bottomPage ≤ N := by
    obtain ⟨k, hk | hk⟩ := Int.even_or_odd' v <;> subst hk
    · rw [getViewConfiguration_even]; dsimp only
      refine ⟨by omega, by omega, by omega, by omega⟩
    · rw [getViewConfiguration_odd]; dsimp only
      refine ⟨by omega, by omega, by omega, by omega⟩
  have htop2N : (getViewConfiguration (2 * N)).topPage = N + 1 := by
    rw [getViewConfiguration_even]
  refine ⟨hbounds, draws_of_page_bounds N v hbounds.2.1 hbounds.2.2.2, htop2N, ?_⟩
  intro hdraw
  rw [drawsTopHalf, htop2N] at hdraw
  omega

/-- Witness for C10 at a 2-page document and its middle view 3. -/
theorem valid_views_reference_existing_pages_witness :
    ((1 : Int) ≤ 2 ∧ (1 : Int) ≤ 3 ∧ (3 : Int) ≤ 2 * 2 - 1)
    ∧ (1 ≤ (getViewConfiguration 3).topPage ∧ (getViewConfiguration 3).topPage ≤ 2
        ∧ 1 ≤ (getViewConfiguration 3).bottomPage ∧ (getViewConfiguration 3).bottomPage ≤ 2) :=
  ⟨⟨by decide, by decide, by decide⟩,
    (valid_views_reference_existing_pages 2 3 (by decide) (by decide) (by decide)).1⟩

/- ### How many views reference a given page -/

/-- A view references a page when its configuration shows that page in the
top or in the bottom slot. -/
def viewReferencesPage (view page : Int) : Prop :=
  (getViewConfiguration view).topPage = page ∨
    (getViewConfiguration view).bottomPage = page

instance (view page : Int) : Decidable (viewReferencesPage view page) :=
  inferInstanceAs (Decidable (_ ∨ _))

/-- The number of valid view indices `v ∈ [1, 2N - 1]` whose configuration
references the given page. -/
def pageRefCount (totalPages page : Int) : Nat :=
  ((Finset.Icc 1 (2 * totalPages - 1)).filter
    (fun v => viewReferencesPage v page)).card

/-- A view references page `p` exactly when it is one of
`2p - 2`, `2p - 1`, `2p`. -/
theorem viewReferencesPage_iff (view page : Int) :
    viewReferencesPage view page ↔
      view = 2 * page - 2 ∨ view = 2 * page - 1 ∨ view = 2 * page := by
  obtain ⟨k, hk | hk⟩ := Int.even_or_odd' view <;> subst hk
  · simp only [viewReferencesPage, getViewConfiguration_even]
    omega
  · simp only [viewReferencesPage, getViewConfiguration_odd]
    omega

/-- C8 counterexample: in a 3-page document the middle page 2 is referenced
by three views (2, 3 and 4), not by two. -/
theorem interior_page_refcount_counterexample :
    pageRefCount 3 2 = 3 ∧ pageRefCount 3 2 ≠ 2 := by
  constructor <;> decide

/-- C8 (amended): for every page count `N` and interior page `1 < p < N`,
the page is referenced by exactly three views, while the boundary pages 1
and `N` are referenced by exactly two views each (so strictly fewer). -/
theorem interior_page_refcount (N p : Int) (hp1 : 1 < p) (hpN : p < N) :
    pageRefCount N p = 3 ∧ pageRefCount N 1 = 2 ∧ pageRefCount N N = 2 := by
  refine ⟨?_, ?_, ?_⟩
  · have hset : (Finset.Icc 1 (2 * N - 1)).filter (fun v => viewReferencesPage v p)
        = {2 * p - 2, 2 * p - 1, 2 * p} := by
      ext v
      simp only [Finset.mem_filter, Finset.mem_Icc, viewReferencesPage_iff,
        Finset.mem_insert, Finset.mem_singleton]
      omega
    rw [pageRefCount, hset]
    rw [Finset.card_insert_of_not_mem
        (by simp only [Finset.mem_insert, Finset.mem_singleton]; omega),
      Finset.card_insert_of_not_mem (by simp only [Finset.mem_singleton]; omega),
      Finset.card_singleton]
  · have hset : (Finset.Icc 1 (2 * N - 1)).filter (fun v => viewReferencesPage v 1)
        = {1, 2} := by
      ext v
      simp only [Finset.mem_filter, Finset.mem_Icc, viewReferencesPage_iff,
        Finset.mem_insert, Finset.mem_singleton]
      omega
    rw [pageRefCount, hset]
    rw [Finset.card_insert_of_not_mem (by simp only [Finset.mem_singleton]; omega),
      Finset.card_singleton]
  · have hset : (Finset.Icc 1 (2 * N - 1)).filter (fun v => viewReferencesPage v N)
        = {2 * N - 2, 2 * N - 1} := by
      ext v
      simp only [Finset.mem_filter, Finset.mem_Icc, viewReferencesPage_iff,
        Finset.mem_insert, Finset.mem_singleton]
      omega
    rw [pageRefCount, hset]
    rw [Finset.card_insert_of_not_mem (by simp only [Finset.mem_singleton]; omega),
      Finset.card_singleton]

/-- Witness for the amended C8 at `N = 3`, `p = 2`. -/
theorem interior_page_refcount_witness :
    ((1 : Int) < 2 ∧ (2 : Int) < 3)
    ∧ (pageRefCount 3 2 = 3 ∧ pageRefCount 3 1 = 2 ∧ pageRefCount 3 3 = 2) :=
  ⟨⟨by decide, by decide⟩, interior_page_refcount 3 2 (by decide) (by decide)⟩

/- ### Marker / annot data (`src/unnamed/part_001`, `src/lib/storage.ts`) -/

/-- A repetition marker (`interface Marker`): origin view and relative
coordinates, target view and relative coordinates, and a color index. -/
structure Marker where
  id : String
  view : Int
  x : Rat
  y : Rat
  targetView : Int
  targetX : Rat
  targetY : Rat
  colorIndex : Nat
deriving DecidableEq, Repr

/-- The symbolic annot types
(`'oval' | 'wholeNote' | 'repeatStart' | 'repeatEnd' | 'text'`). -/
inductive AnnotType where
  | oval
  | wholeNote
  | repeatStart
  | repeatEnd
  | text
deriving DecidableEq, Repr

/-- A visual annot (`interface Annotation` in `src/unnamed/part_001`):
type, relative coordinates and an optional text payload. -/
structure Annot where
  id : String
  type : AnnotType
  x : Rat
  y : Rat
  text : Option String
deriving DecidableEq, Repr

/-- The marker-insertion mode
(`useState<'none' | 'origin' | 'target'>`); the spec's capture states
`Idle` / `AwaitingOrigin` / `AwaitingTarget` in this order. -/
inductive InsertMode where
  | none
  | origin
  | target
deriving DecidableEq, Repr

/-- The pending origin recorded by the first capture click
(`useState<{view, x, y} | null>`). -/
structure PendingOrigin where
  view : Int
  x : Rat
  y : Rat
deriving DecidableEq, Repr

/-- The viewer state touched by `handleCanvasClick`
(`src/unnamed/part_001`, split mode). -/
structure ViewerState where
  currentView : Int
  totalPages : Int
  insertMode : InsertMode
  pendingOrigin : Option PendingOrigin
  markers : List Marker
  annots : List Annot
  selectedAnnotType : Option AnnotType
deriving DecidableEq, Repr

/-- `handleCanvasClick` of the marker/annot viewer
(`src/unnamed/part_001` lines 801-901) in split mode (the scroll-mode-only
effects, which touch just the saved scroll offset, are omitted):

1. in `origin` insert mode, record the pending origin and switch to
   `target` mode;
2. in `target` mode with a pending origin, append a `Marker` built from the
   pending origin and the clicked target with
   `colorIndex = markers.length`, then reset mode and pending origin;
3. with a pending annot type, add the annot (a `text` annot only when
   the prompt returned a non-empty string — JS string truthiness) and clear
   the pending type;
4. on a click within 20px of a marker origin of the current view, jump to
   that marker's target view (`distance ≤ 20` is stated on the squares,
   avoiding the square root);
5. otherwise navigate: right half forward, left half back.

`newId` stands for the generated `Date.now().toString()` identifier and
`promptResult` for the outcome of the text prompt (`none` = cancelled). -/
def handleCanvasClick (newId : String) (promptResult : Option String)
    (rectW rectH clickX clickY : Rat) (s : ViewerState) : ViewerState :=
  let relativeX := clickX / rectW
  let relativeY := clickY / rectH
  if s.insertMode = .origin then
    { s with pendingOrigin := some { view := s.currentView, x := relativeX, y := relativeY },
             insertMode := .target }
  else
    match s.insertMode, s.pendingOrigin with
    | .target, some o =>
      let newMarker : Marker :=
        { id := newId, view := o.view, x := o.x, y := o.y,
          targetView := s.currentView, targetX := relativeX, targetY := relativeY,
          colorIndex := s.markers.length }
      { s with markers := s.markers ++ [newMarker],
               pendingOrigin := Option.none, insertMode := .none }
    | _, _ =>
      match s.selectedAnnotType with
      | some ty =>
        if ty = .text then
          match promptResult with
          | some t =>
            if t = "" then { s with selectedAnnotType := Option.none }
            else
              let newAnnot : Annot :=
                { id := newId, type := .text,
                  x := relativeX, y := relativeY, text := some t }
              { s with annots := s.annots ++ [newAnnot],
                       selectedAnnotType := Option.none }
          | Option.none => { s with selectedAnnotType := Option.none }
        else
          let newAnnot : Annot :=
            { id := newId, type := ty,
              x := relativeX, y := relativeY, text := Option.none }
          { s with annots := s.annots ++ [newAnnot],
                   selectedAnnotType := Option.none }
      | Option.none =>
        match s.markers.find? (fun m =>
            decide (m.view = s.currentView) &&
            decide ((clickX - m.x * rectW) * (clickX - m.x * rectW) +
              (clickY - m.y * rectH) * (clickY - m.y * rectH) ≤ 400)) with
        | some m => { s with currentView := m.targetView }
        | Option.none =>
          if clickX > rectW / 2 then
            { s with currentView := goToNextView s.totalPages s.currentView }
          else
            { s with currentView := goToPreviousView s.currentView }

/- ### The storage layer (`src/lib/storage.ts`) -/

/-- A record of the `markers` object store (`interface StoredMarkers`),
keyed by `id = "markers-" ++ fileName`. -/
structure StoredMarkers where
  id : String
  fileName : String
  markers : List Marker
  lastModified : Int
deriving DecidableEq, Repr

/-- `store.put` on the `markers` object store: overwrite the record with
the same key. -/
def putMarkersRecord (table : List StoredMarkers) (rec : StoredMarkers) :
    List StoredMarkers :=
  table.filter (fun r => decide (r.id ≠ rec.id)) ++ [rec]

/-- `saveMarkers` (`src/lib/storage.ts` lines 304-323): build a
`StoredMarkers` record with `id = "markers-" ++ fileName` and `put` it. -/
def saveMarkers (table : List StoredMarkers) (fileName : String)
    (markers : List Marker) (now : Int) : List StoredMarkers :=
  putMarkersRecord table
    { id := "markers-" ++ fileName, fileName := fileName,
      markers := markers, lastModified := now }

/-- `getMarkers` (`src/lib/storage.ts` lines 325-341): look up
`"markers-" ++ fileName` and return its marker list, or `[]`. -/
def getMarkers (table : List StoredMarkers) (fileName : String) : List Marker :=
  match table.find? (fun r => decide (r.id = "markers-" ++ fileName)) with
  | some r => r.markers
  | none => []

theorem getMarkers_saveMarkers (table : List StoredMarkers) (fileName : String)
    (markers : List Marker) (now : Int) :
    getMarkers (saveMarkers table fileName markers now) fileName = markers := by
  unfold getMarkers saveMarkers putMarkersRecord
  rw [List.find?_append]
  have hnone : (table.filter
      (fun r => decide (r.id ≠ "markers-" ++ fileName))).find?
        (fun r => decide (r.id = "markers-" ++ fileName)) = none := by
    rw [List.find?_eq_none]
    intro x hx
    have := (List.mem_filter.mp hx).2
    simpa using this
  rw [hnone]
  simp [List.find?]

/-- C5: starting from capture state `AwaitingOrigin` (`insertMode =
'origin'`) at view `v1`, a click at relative coordinates `(x1, y1)` records
the pending origin and moves to `AwaitingTarget`; after navigating to view
`v2`, a second click at `(x2, y2)` appends exactly the marker
`{view := v1, x := x1, y := y1, targetView := v2, targetX := x2,
targetY := y2}` with `colorIndex` equal to the prior marker count, returns
the machine to `Idle` and clears the pending origin; and saving then
reloading the marker set under the same document name returns it intact. -/
theorem marker_capture_roundtrip (id1 id2 fileName : String) (now : Int)
    (table : List StoredMarkers) (po : Option PendingOrigin)
    (ms : List Marker) (ans : List Annot) (sel : Option AnnotType)
    (pr1 pr2 : Option String) (N v1 v2 : Int) (rectW rectH x1 y1 x2 y2 : Rat)
    (hW : rectW ≠ 0) (hH : rectH ≠ 0) :
    handleCanvasClick id1 pr1 rectW rectH (x1 * rectW) (y1 * rectH)
        { currentView := v1, totalPages := N, insertMode := .origin,
          pendingOrigin := po, markers := ms, annots := ans,
          selectedAnnotType := sel }
      = { currentView := v1, totalPages := N, insertMode := .target,
          pendingOrigin := some { view := v1, x := x1, y := y1 },
          markers := ms, annots := ans, selectedAnnotType := sel }
    ∧ handleCanvasClick id2 pr2 rectW rectH (x2 * rectW) (y2 * rectH)
        { currentView := v2, totalPages := N, insertMode := .target,
          pendingOrigin := some { view := v1, x := x1, y := y1 },
          markers := ms, annots := ans, selectedAnnotType := sel }
      = { currentView := v2, totalPages := N, insertMode := .none,
          pendingOrigin := none,
          markers := ms ++
            [{ id := id2, view := v1, x := x1, y := y1, targetView := v2,
               targetX := x2, targetY := y2, colorIndex := ms.length }],
          annots := ans, selectedAnnotType := sel }
    ∧ getMarkers
        (saveMarkers table fileName
          (ms ++
            [{ id := id2, view := v1, x := x1, y := y1, targetView := v2,
               targetX := x2, targetY := y2, colorIndex := ms.length }]) now) fileName
      = ms ++
          [{ id := id2, view := v1, x := x1, y := y1, targetView := v2,
             targetX := x2, targetY := y2, colorIndex := ms.length }] := by
  refine ⟨?_, ?_, getMarkers_saveMarkers _ _ _ _⟩
  · simp [handleCanvasClick, mul_div_cancel_right₀ _ hW, mul_div_cancel_right₀ _ hH]
  · simp [handleCanvasClick, mul_div_cancel_right₀ _ hW, mul_div_cancel_right₀ _ hH]

/-- Witness for C5 with the concrete clicks `(0.2, 0.3)` on view 1 and
`(0.7, 0.8)` on view 3 of a 3-page document. -/
theorem marker_capture_roundtrip_witness :
    ((1 : Rat) ≠ 0)
    ∧ handleCanvasClick "m2" none 1 1 ((7 : Rat) / 10) ((8 : Rat) / 10)
        { currentView := 3, totalPages := 3, insertMode := .target,
          pendingOrigin := some { view := 1, x := (2 : Rat) / 10, y := (3 : Rat) / 10 },
          markers := [], annots := [], selectedAnnotType := none }
      = { currentView := 3, totalPages := 3, insertMode := .none,
          pendingOrigin := none,
          markers :=
            [{ id := "m2", view := 1, x := (2 : Rat) / 10, y := (3 : Rat) / 10,
               targetView := 3, targetX := (7 : Rat) / 10, targetY := (8 : Rat) / 10,
               colorIndex := 0 }],
          annots := [], selectedAnnotType := none } := by
  have h := marker_capture_roundtrip "m1" "m2" "score.pdf" 0 [] none [] [] none
    none none 3 1 3 1 1 ((2 : Rat) / 10) ((3 : Rat) / 10) ((7 : Rat) / 10) ((8 : Rat) / 10)
    (by norm_num) (by norm_num)
  refine ⟨by norm_num, ?_⟩
  have h2 := h.2.1
  simpa using h2

/-- C9: with a pending `text` annot placement, a placement click whose
text prompt is cancelled or returns the empty string creates no annot —
the annot list is unchanged — and clears the pending placement; a `text`
annot is appended exactly when the prompt returns a non-empty string. -/
theorem text_annot_requires_text (newId : String) (N v : Int)
    (po : Option PendingOrigin) (ms : List Marker) (ans : List Annot)
    (rectW rectH clickX clickY x y : Rat) (t : String)
    (ht : t ≠ "") (hW : rectW ≠ 0) (hH : rectH ≠ 0) :
    handleCanvasClick newId none rectW rectH clickX clickY
        { currentView := v, totalPages := N, insertMode := .none,
          pendingOrigin := po, markers := ms, annots := ans,
          selectedAnnotType := some .text }
      = { currentView := v, totalPages := N, insertMode := .none,
          pendingOrigin := po, markers := ms, annots := ans,
          selectedAnnotType := none }
    ∧ handleCanvasClick newId (some "") rectW rectH clickX clickY
        { currentView := v, totalPages := N, insertMode := .none,
          pendingOrigin := po, markers := ms, annots := ans,
          selectedAnnotType := some .text }
      = { currentView := v, totalPages := N, insertMode := .none,
          pendingOrigin := po, markers := ms, annots := ans,
          selectedAnnotType := none }
    ∧ handleCanvasClick newId (some t) rectW rectH (x * rectW) (y * rectH)
        { currentView := v, totalPages := N, insertMode := .none,
          pendingOrigin := po, markers := ms, annots := ans,
          selectedAnnotType := some .text }
      = { currentView := v, totalPages := N, insertMode := .none,
          pendingOrigin := po, markers := ms,
          annots := ans ++
            [{ id := newId, type := .text, x := x, y := y, text := some t }],
          selectedAnnotType := none } := by
  refine ⟨?_, ?_, ?_⟩
  · simp [handleCanvasClick]
  · simp [handleCanvasClick]
  · simp [handleCanvasClick, ht, mul_div_cancel_right₀ _ hW, mul_div_cancel_right₀ _ hH]

/-- Witness for C9 with a concrete non-empty text on view 1. -/
theorem text_annot_requires_text_witness :
    ("hello" ≠ "" ∧ (1 : Rat) ≠ 0)
    ∧ handleCanvasClick "a1" (some "hello") 1 1 ((1 : Rat) / 2) ((1 : Rat) / 2)
        { currentView := 1, totalPages := 3, insertMode := .none,
          pendingOrigin := none, markers := [], annots := [],
          selectedAnnotType := some .text }
      = { currentView := 1, totalPages := 3, insertMode := .none,
          pendingOrigin := none, markers := [],
          annots :=
            [{ id := "a1", type := .text, x := (1 : Rat) / 2, y := (1 : Rat) / 2,
               text := some "hello" }],
          selectedAnnotType := none } := by
  have h := text_annot_requires_text "a1" 3 1 none [] []
    1 1 ((1 : Rat) / 2) ((1 : Rat) / 2) ((1 : Rat) / 2) ((1 : Rat) / 2) "hello"
    (by decide) (by norm_num) (by norm_num)
  exact ⟨⟨by decide, by norm_num⟩, by simpa using h.2.2⟩

/- ### Folders and files in the storage layer -/

/-- A record of the `folders` object store (`interface StoredFolder`). -/
structure StoredFolder where
  id : String
  name : String
  createdAt : Int
  order : Int
deriving DecidableEq, Repr

/-- A record of the `files` object store (`interface StoredFile`); the
binary payload is irrelevant to the verified claims and kept abstract as
its metadata fields. -/
structure StoredFileRec where
  id : String
  name : String
  size : Int
  mimeType : String
  lastModified : Int
  addedAt : Int
  folderId : Option String
deriving DecidableEq, Repr

/-- The `folders` and `files` object stores of the database. -/
structure StorageDB where
  folders : List StoredFolder
  files : List StoredFileRec
deriving DecidableEq, Repr

/-- `getFolders` (`src/lib/storage.ts` lines 129-141): read all folders
through the `order` index, i.e. sorted by the `order` field. -/
def getFolders (db : StorageDB) : List StoredFolder :=
  db.folders.mergeSort (fun a b => decide (a.order ≤ b.order))

/-- `deleteFolder` (`src/lib/storage.ts` lines 166-208): one transaction
that deletes the folder record and re-`put`s every file whose `folderId`
is the deleted id with the `folderId` field removed
(`delete file.folderId`). -/
def deleteFolder (db : StorageDB) (folderId : String) : StorageDB :=
  { db with
      folders := db.folders.filter (fun f => decide (f.id ≠ folderId)),
      files := db.files.map (fun f =>
        if f.folderId = some folderId then { f with folderId := none } else f) }

/-- The `Partial<StoredFolder>` updates accepted by `updateFolder`; a
`some` field overrides the stored one (`{ ...folder, ...updates }`). -/
structure FolderUpdates where
  id : Option String
  name : Option String
  createdAt : Option Int
  order : Option Int
deriving DecidableEq, Repr

/-- `{ ...folder, ...updates }`. -/
def applyFolderUpdates (f : StoredFolder) (u : FolderUpdates) : StoredFolder :=
  { id := u.id.getD f.id, name := u.name.getD f.name,
    createdAt := u.createdAt.getD f.createdAt, order := u.order.getD f.order }

/-- `store.put` on the `folders` object store (keyed by `id`). -/
def putFolderRecord (folders : List StoredFolder) (f : StoredFolder) :
    List StoredFolder :=
  folders.filter (fun g => decide (g.id ≠ f.id)) ++ [f]

/-- `updateFolder` (`src/lib/storage.ts` lines 143-164): `get` the folder
by id; when present, `put` the merged record; when absent, reject with
`Error('Folder not found')` without writing. -/
def updateFolder (db : StorageDB) (folderId : String) (u : FolderUpdates) :
    Except String StorageDB :=
  match db.folders.find? (fun f => decide (f.id = folderId)) with
  | some folder =>
    .ok { db with folders := putFolderRecord db.folders (applyFolderUpdates folder u) }
  | none => .error "Folder not found"

/-- The composite document key `` `${file.name}-${file.size}-${file.lastModified}` ``. -/
def fileKey (name : String) (size lastModified : Int) : String :=
  name ++ "-" ++ toString size ++ "-" ++ toString lastModified

/-- `store.put` on the `files` object store (keyed by `id`). -/
def putFileRecord (files : List StoredFileRec) (f : StoredFileRec) :
    List StoredFileRec :=
  files.filter (fun g => decide (g.id ≠ f.id)) ++ [f]

/-- `moveFileToFolder` (`src/lib/storage.ts` lines 236-259): `get` the file
by its composite key; when present, `put` it back with the new `folderId`;
when absent, reject with `Error('File not found')` without writing. -/
def moveFileToFolder (db : StorageDB) (name : String) (size lastModified : Int)
    (folderId : Option String) : Except String StorageDB :=
  match db.files.find? (fun f => decide (f.id = fileKey name size lastModified)) with
  | some sf => .ok { db with files := putFileRecord db.files { sf with folderId := folderId } }
  | none => .error "File not found"

/-- C6: after `deleteFolder id`, no stored file references the folder id,
every file that referenced it is present with its `folderId` cleared, and
the folder id is absent from the folder list returned by `getFolders`. -/
theorem deleteFolder_no_dangling (db : StorageDB) (folderId : String) :
    (∀ f ∈ (deleteFolder db folderId).files, f.folderId ≠ some folderId)
    ∧ (∀ f ∈ db.files, f.folderId = some folderId →
        ({ f with folderId := none } : StoredFileRec) ∈ (deleteFolder db folderId).files)
    ∧ ∀ g ∈ getFolders (deleteFolder db folderId), g.id ≠ folderId := by
  refine ⟨?_, ?_, ?_⟩
  · intro f hf
    obtain ⟨g, hg, rfl⟩ := List.mem_map.mp hf
    by_cases h : g.folderId = some folderId
    · rw [if_pos h]; simp
    · rw [if_neg h]; exact h
  · intro f hf hfid
    refine List.mem_map.mpr ⟨f, hf, ?_⟩
    rw [if_pos hfid]
  · intro g hg
    have hmem : g ∈ (deleteFolder db folderId).folders :=
      List.mem_mergeSort.mp hg
    have := (List.mem_filter.mp hmem).2
    simpa using this

/-- Concrete folder and two documents sitting inside it. -/
def exampleDB : StorageDB :=
  { folders := [{ id := "f1", name := "Scores", createdAt := 0, order := 0 }],
    files :=
      [{ id := "a.pdf-10-1", name := "a.pdf", size := 10, mimeType := "application/pdf",
         lastModified := 1, addedAt := 2, folderId := some "f1" },
       { id := "b.pdf-20-3", name := "b.pdf", size := 20, mimeType := "application/pdf",
         lastModified := 3, addedAt := 4, folderId := some "f1" }] }

/-- Witness for C6: deleting `f1` from `exampleDB` clears the reference on
one of the two documents inside (applied at the first one). -/
theorem deleteFolder_no_dangling_witness :
    ({ id := "a.pdf-10-1", name := "a.pdf", size := 10, mimeType := "application/pdf",
       lastModified := 1, addedAt := 2, folderId := none } : StoredFileRec)
      ∈ (deleteFolder exampleDB "f1").files :=
  (deleteFolder_no_dangling exampleDB "f1").2.1
    { id := "a.pdf-10-1", name := "a.pdf", size := 10, mimeType := "application/pdf",
      lastModified := 1, addedAt := 2, folderId := some "f1" }
    (by decide) (by decide)

/-- C7: `updateFolder` on an id absent from the folder store rejects with
the distinct error `'Folder not found'`, `moveFileToFolder` on a file whose
composite key is absent rejects with `'File not found'`, in each case
performing no write (the error result carries no modified store), and the
two errors are distinct. -/
theorem not_found_errors (db : StorageDB) (folderId : String) (u : FolderUpdates)
    (name : String) (size lastModified : Int) (dest : Option String) :
    (db.folders.find? (fun f => decide (f.id = folderId)) = none →
        updateFolder db folderId u = Except.error "Folder not found")
    ∧ (db.files.find? (fun f => decide (f.id = fileKey name size lastModified)) = none →
        moveFileToFolder db name size lastModified dest = Except.error "File not found")
    ∧ ("Folder not found" : String) ≠ "File not found" := by
  refine ⟨?_, ?_, by decide⟩
  · intro h
    unfold updateFolder
    rw [h]
  · intro h
    unfold moveFileToFolder
    rw [h]

/-- Witness for C7 on the empty database. -/
theorem not_found_errors_witness :
    (([] : List StoredFolder).find? (fun f => decide (f.id = "nope")) = none
      ∧ updateFolder { folders := [], files := [] } "nope"
          { id := none, name := none, createdAt := none, order := none }
        = Except.error "Folder not found")
    ∧ (([] : List StoredFileRec).find?
          (fun f => decide (f.id = fileKey "x.pdf" 1 2)) = none
      ∧ moveFileToFolder { folders := [], files := [] } "x.pdf" 1 2 none
        = Except.error "File not found") :=
  ⟨⟨rfl, (not_found_errors { folders := [], files := [] } "nope"
      { id := none, name := none, createdAt := none, order := none }
      "x.pdf" 1 2 none).1 rfl⟩,
    ⟨rfl, (not_found_errors { folders := [], files := [] } "nope"
      { id := none, name := none, createdAt := none, order := none }
      "x.pdf" 1 2 none).2.1 rfl⟩⟩

end PageScrollMusic
